import Mathlib

/-!
Shallow embedding of the flywell-logistics-backend core: the wallet ledger
(src/models walletSchema + src/services/wallet.service.js), the order
orchestrator (src/services/order.service.js), the webhook status-update path
(src/controllers/webhook.controller.js) and the provider status mapping
(src/providers/nimbuspost.provider.js, src/providers/overseaslogistic.provider.js).

Amounts are JavaScript numbers used for money and weights; they are embedded
as rationals (ℚ).  Mongo ObjectIds are embedded as strings, timestamps as ℕ
ticks.  Network calls (rate quote, shipment booking) are embedded as explicit
`Except` parameters: the caller supplies the outcome the provider would have
produced.  Everything else is translated statement by statement from the
JavaScript source.
-/

namespace Flywell

/-- `AppError` (utils/AppError.js): an error with a message and an
HTTP status code, as thrown by `new AppError(message, statusCode)`. -/
structure AppError where
  message : String
  statusCode : Nat
  deriving DecidableEq, Repr

/-- JavaScript `a || b` on an optional string: a missing or empty string is
falsy and falls through to the default. -/
def jsStrOr (a : Option String) (b : String) : String :=
  match a with
  | none => b
  | some s => if s = "" then b else s

/-- JavaScript `a || b` where both sides are optional strings
(`shipment.awb || shipment.trackingNumber`). -/
def jsStrOrOpt (a b : Option String) : Option String :=
  match a with
  | none => b
  | some s => if s = "" then b else some s

/-- JavaScript truthiness of an optional string: `null`/`undefined` and the
empty string are falsy. -/
def strTruthy (a : Option String) : Bool :=
  match a with
  | none => false
  | some s => s ≠ ""

/-- JavaScript `a || b` on an optional number: a missing value and `0` are
falsy and fall through to the default. -/
def jsNumOr (a : Option ℚ) (b : ℚ) : ℚ :=
  match a with
  | none => b
  | some v => if v = 0 then b else v

/-! ## JavaScript string primitives

The partner status vocabulary is ASCII, so `toLowerCase`, `toUpperCase`,
`trim` and `includes` are embedded as structural functions over the string's
character list. -/

/-- ASCII lower-casing of one character (JS `toLowerCase` on the status
vocabulary). -/
def asciiLower (c : Char) : Char :=
  if 'A' ≤ c ∧ c ≤ 'Z' then Char.ofNat (c.toNat + 32) else c

/-- ASCII upper-casing of one character (JS `toUpperCase`). -/
def asciiUpper (c : Char) : Char :=
  if 'a' ≤ c ∧ c ≤ 'z' then Char.ofNat (c.toNat - 32) else c

/-- JS `s.toLowerCase()`. -/
def lowerStr (s : String) : String := String.mk (s.data.map asciiLower)

/-- JS `s.toUpperCase()`. -/
def upperStr (s : String) : String := String.mk (s.data.map asciiUpper)

/-- JS whitespace for `trim`. -/
def isWsChar (c : Char) : Bool := c = ' ' ∨ c = '\t' ∨ c = '\n' ∨ c = '\r'

/-- JS `s.trim()`. -/
def trimStr (s : String) : String :=
  String.mk (((s.data.dropWhile isWsChar).reverse.dropWhile isWsChar).reverse)

/-- Whether `pat` is an initial segment of the list. -/
def listBeginsWith : List Char → List Char → Bool
  | [], _ => true
  | _ :: _, [] => false
  | p :: ps, c :: cs => p = c && listBeginsWith ps cs

/-- Whether `pat` occurs contiguously in the list. -/
def listContainsSeg (pat : List Char) : List Char → Bool
  | [] => listBeginsWith pat []
  | c :: cs => listBeginsWith pat (c :: cs) || listContainsSeg pat cs

/-- JS `s.includes(pat)`. -/
def strIncludes (s pat : String) : Bool := listContainsSeg pat.data s.data

/-- JS object lookup in a literal with string keys (insertion order,
first matching key). -/
def assocLookup : List (String × String) → String → Option String
  | [], _ => none
  | p :: ps, k => if p.1 = k then some p.2 else assocLookup ps k

/-- Case-insensitive pass over the same literal: first entry whose key
upper-cases to the probe's upper-casing. -/
def assocLookupUpper : List (String × String) → String → Option String
  | [], _ => none
  | p :: ps, k => if upperStr p.1 = upperStr k then some p.2 else assocLookupUpper ps k

/-- What a JavaScript indexed read on a status-map object literal can yield:
one of the literal's own string values, or a member inherited from
`Object.prototype` (a function, or the `__proto__` object) — all of which are
truthy. -/
inductive JsValue
  | str (s : String)
  | protoMember (name : String)
  deriving DecidableEq, Repr

/-- The property names every object literal inherits from `Object.prototype`:
reading one of these keys on a status map yields a truthy non-status value. -/
def objectProtoProps : List String :=
  ["constructor", "hasOwnProperty", "isPrototypeOf", "propertyIsEnumerable",
   "toLocaleString", "toString", "valueOf", "__defineGetter__",
   "__defineSetter__", "__lookupGetter__", "__lookupSetter__", "__proto__"]

/-- JS `obj[k]` on an object literal: an own entry first, else the inherited
`Object.prototype` member when `k` names one, else `undefined`. -/
def jsObjGet (own : List (String × String)) (k : String) : Option JsValue :=
  match assocLookup own k with
  | some v => some (JsValue.str v)
  | none => if k ∈ objectProtoProps then some (JsValue.protoMember k) else none

/-! ## Wallet model (walletSchema in src/models, src/services/wallet.service.js) -/

/-- `TRANSACTION_TYPES` (config/constants.js): `credit` and `debit`. -/
inductive TxnType
  | credit
  | debit
  deriving DecidableEq, Repr

/-- One entry of `walletSchema.transactions`: type, amount, description,
optional order reference, optional AWB.  (The free-form `metadata` bag carries
no behaviour and is omitted.) -/
structure Txn where
  type : TxnType
  amount : ℚ
  description : String
  orderId : Option String
  awb : Option String
  deriving DecidableEq, Repr

/-- A wallet document: stored `balance` plus the embedded `transactions` array. -/
structure Wallet where
  balance : ℚ
  transactions : List Txn
  deriving DecidableEq, Repr

/-- A wallet as lazily created by `getWalletByUserId`: `balance: 0`, no
transactions. -/
def freshWallet : Wallet :=
  { balance := 0, transactions := [] }

/-- `walletSchema.methods.addTransaction` (src/models, walletSchema):
rejects a debit that exceeds the balance, otherwise pushes one transaction
and moves the balance by the signed amount. -/
def Wallet.addTransaction (w : Wallet) (type : TxnType) (amount : ℚ)
    (description : String) (orderId : Option String) (awb : Option String) :
    Except String Wallet :=
  if type = TxnType.debit ∧ w.balance < amount then
    Except.error "Insufficient balance"
  else
    Except.ok
      { balance :=
          match type with
          | TxnType.credit => w.balance + amount
          | TxnType.debit => w.balance - amount
        transactions :=
          w.transactions ++
            [{ type := type, amount := amount, description := description,
               orderId := orderId, awb := awb }] }

/-- `WalletService.addMoney` (src/services/wallet.service.js): amount must be
strictly positive, then the credit goes through `addTransaction`.  Returns the
updated wallet and the transaction the service reports back. -/
def addMoney (w : Wallet) (amount : ℚ) (description : Option String) :
    Except AppError (Wallet × Txn) :=
  if amount ≤ 0 then
    Except.error { message := "Amount must be greater than 0", statusCode := 400 }
  else
    let desc := jsStrOr description "Wallet recharge"
    match w.addTransaction TxnType.credit amount desc none none with
    | Except.error m => Except.error { message := m, statusCode := 500 }
    | Except.ok w2 =>
        Except.ok (w2,
          { type := TxnType.credit, amount := amount, description := desc,
            orderId := none, awb := none })

/-- The error message `deductMoney` throws when the balance is short. -/
def insufficientBalanceError : AppError :=
  { message := "Insufficient wallet balance", statusCode := 400 }

/-- `WalletService.deductMoney` (src/services/wallet.service.js): amount must
be strictly positive, the balance must cover it, then the debit goes through
`addTransaction`. -/
def deductMoney (w : Wallet) (amount : ℚ) (description : Option String)
    (orderId : Option String) (awb : Option String) :
    Except AppError (Wallet × Txn) :=
  if amount ≤ 0 then
    Except.error { message := "Amount must be greater than 0", statusCode := 400 }
  else if w.balance < amount then
    Except.error insufficientBalanceError
  else
    let desc := jsStrOr description "Order payment"
    match w.addTransaction TxnType.debit amount desc orderId awb with
    | Except.error m => Except.error { message := m, statusCode := 500 }
    | Except.ok w2 =>
        Except.ok (w2,
          { type := TxnType.debit, amount := amount, description := desc,
            orderId := orderId, awb := awb })

/-! ## Ledger invariant harness (claim C1) -/

/-- One wallet operation of the service layer: a credit (`addMoney`) or a
debit (`deductMoney`). -/
inductive WalletOp
  | credit (amount : ℚ)
  | debit (amount : ℚ)
  deriving DecidableEq, Repr

/-- Run one service operation against a wallet.  A failed operation leaves the
wallet exactly as it was (the service throws before any mutation); the boolean
records whether the operation succeeded. -/
def applyOp (w : Wallet) (op : WalletOp) : Wallet × Bool :=
  match op with
  | WalletOp.credit a =>
      match addMoney w a none with
      | Except.ok (w2, _) => (w2, true)
      | Except.error _ => (w, false)
  | WalletOp.debit a =>
      match deductMoney w a none none none with
      | Except.ok (w2, _) => (w2, true)
      | Except.error _ => (w, false)

/-- Run a sequence of wallet operations; also counts the successful ones. -/
def runOps (w : Wallet) : List WalletOp → Wallet × Nat
  | [] => (w, 0)
  | op :: rest =>
      let p := applyOp w op
      let q := runOps p.1 rest
      (q.1, (if p.2 then 1 else 0) + q.2)

/-- The signed sum of a transaction log: credits count positive, debits
negative. -/
def signedSum : List Txn → ℚ
  | [] => 0
  | t :: ts =>
      (match t.type with
       | TxnType.credit => t.amount
       | TxnType.debit => -t.amount) + signedSum ts

/-- The transaction record `deductMoney` builds for a debit. -/
def debitTxnRecord (amount : ℚ) (d : Option String) (oid av : Option String) : Txn :=
  { type := TxnType.debit, amount := amount, description := jsStrOr d "Order payment",
    orderId := oid, awb := av }

/-- The wallet of the spec scenario: balance 500, empty log. -/
def wallet500 : Wallet :=
  { balance := 500, transactions := [] }

/-- The wallet after the scenario's first debit: balance 200, one debit of 300. -/
def wallet200 : Wallet :=
  { balance := 200, transactions := [debitTxnRecord 300 none none none] }

lemma signedSum_append (ts us : List Txn) :
    signedSum (ts ++ us) = signedSum ts + signedSum us := by
  induction ts with
  | nil => simp [signedSum]
  | cons t ts ih => simp [signedSum, ih, add_assoc]

lemma applyOp_spec (w : Wallet) (op : WalletOp)
    (hb : w.balance = signedSum w.transactions) (h0 : 0 ≤ w.balance) :
    (applyOp w op).1.balance = signedSum (applyOp w op).1.transactions ∧
    0 ≤ (applyOp w op).1.balance ∧
    (applyOp w op).1.transactions.length =
      w.transactions.length + (if (applyOp w op).2 then 1 else 0) := by
  cases op with
  | credit a =>
      by_cases ha : a ≤ 0
      · have h : applyOp w (WalletOp.credit a) = (w, false) := by
          simp [applyOp, addMoney, ha]
        rw [h]
        exact ⟨hb, h0, by simp⟩
      · have h : applyOp w (WalletOp.credit a) =
            ({ balance := w.balance + a,
               transactions := w.transactions ++
                 [{ type := TxnType.credit, amount := a,
                    description := "Wallet recharge", orderId := none, awb := none }] },
             true) := by
          simp [applyOp, addMoney, Wallet.addTransaction, ha, jsStrOr]
        rw [h]
        refine ⟨?_, by simp; linarith, by simp⟩
        simp [signedSum_append, signedSum, hb]
  | debit a =>
      by_cases ha : a ≤ 0
      · have h : applyOp w (WalletOp.debit a) = (w, false) := by
          simp [applyOp, deductMoney, ha]
        rw [h]
        exact ⟨hb, h0, by simp⟩
      · by_cases hlt : w.balance < a
        · have h : applyOp w (WalletOp.debit a) = (w, false) := by
            simp [applyOp, deductMoney, ha, hlt]
          rw [h]
          exact ⟨hb, h0, by simp⟩
        · have h : applyOp w (WalletOp.debit a) =
              ({ balance := w.balance - a,
                 transactions := w.transactions ++
                   [{ type := TxnType.debit, amount := a,
                      description := "Order payment", orderId := none, awb := none }] },
               true) := by
            simp [applyOp, deductMoney, Wallet.addTransaction, ha, hlt, jsStrOr]
          rw [h]
          refine ⟨?_, by simp; linarith, by simp⟩
          simp [signedSum_append, signedSum, hb]
          ring

lemma runOps_spec (ops : List WalletOp) (w : Wallet)
    (hb : w.balance = signedSum w.transactions) (h0 : 0 ≤ w.balance) :
    (runOps w ops).1.balance = signedSum (runOps w ops).1.transactions ∧
    0 ≤ (runOps w ops).1.balance ∧
    (runOps w ops).1.transactions.length = w.transactions.length + (runOps w ops).2 := by
  induction ops generalizing w with
  | nil => simpa [runOps] using ⟨hb, h0⟩
  | cons op rest ih =>
      obtain ⟨h1, h2, h3⟩ := applyOp_spec w op hb h0
      obtain ⟨g1, g2, g3⟩ := ih (applyOp w op).1 h1 h2
      refine ⟨by simpa [runOps] using g1, by simpa [runOps] using g2, ?_⟩
      simp only [runOps]
      omega

/-- C1.  Wallet ledger invariant: after any sequence of `addMoney`/`deductMoney`
operations starting from a fresh wallet (failed operations change nothing),
the stored balance equals the signed sum of the transaction log, the balance
is never negative, the log holds exactly one transaction per successful
operation, and each successful `addTransaction` call appends exactly one
transaction. -/
theorem wallet_ledger_invariant (ops : List WalletOp) :
    (runOps freshWallet ops).1.balance = signedSum (runOps freshWallet ops).1.transactions ∧
    0 ≤ (runOps freshWallet ops).1.balance ∧
    (runOps freshWallet ops).1.transactions.length = (runOps freshWallet ops).2 ∧
    (∀ (w w2 : Wallet) (t : TxnType) (a : ℚ) (d : String) (oid av : Option String),
      w.addTransaction t a d oid av = Except.ok w2 →
        w2.transactions.length = w.transactions.length + 1) := by
  have h := runOps_spec ops freshWallet (by simp [freshWallet, signedSum])
    (by simp [freshWallet])
  refine ⟨h.1, h.2.1, by simpa [freshWallet] using h.2.2, ?_⟩
  intro w w2 t a d oid av hok
  by_cases hc : t = TxnType.debit ∧ w.balance < a
  · simp [Wallet.addTransaction, hc] at hok
  · simp [Wallet.addTransaction, hc] at hok
    simp [← hok]

/-- C2.  Debit contract: `deductMoney` rejects a non-positive amount with the
invalid-amount error, rejects a debit beyond the balance with the
insufficient-balance error (the wallet is returned unchanged by `applyOp` in
either failure case), and otherwise appends exactly one debit transaction and
decreases the balance by exactly the amount; with balance 500, a debit of 300
succeeds leaving 200, and a second debit of 300 fails leaving 200. -/
theorem deductMoney_contract (w : Wallet) (amount : ℚ) (d : Option String)
    (oid av : Option String) :
    (amount ≤ 0 → deductMoney w amount d oid av =
        Except.error { message := "Amount must be greater than 0", statusCode := 400 }) ∧
    (0 < amount → w.balance < amount →
        deductMoney w amount d oid av = Except.error insufficientBalanceError) ∧
    (w.balance < amount → applyOp w (WalletOp.debit amount) = (w, false)) ∧
    (amount ≤ 0 → applyOp w (WalletOp.debit amount) = (w, false)) ∧
    (0 < amount → amount ≤ w.balance →
        deductMoney w amount d oid av =
          Except.ok ({ balance := w.balance - amount,
                       transactions := w.transactions ++ [debitTxnRecord amount d oid av] },
                     debitTxnRecord amount d oid av)) ∧
    deductMoney wallet500 300 none none none =
      Except.ok (wallet200, debitTxnRecord 300 none none none) ∧
    deductMoney wallet200 300 none none none = Except.error insufficientBalanceError := by
  refine ⟨?_, ?_, ?_, ?_, ?_, ?_, ?_⟩
  · intro ha
    simp [deductMoney, ha]
  · intro ha hlt
    simp [deductMoney, not_le.2 ha, hlt]
  · intro hlt
    by_cases ha : amount ≤ 0
    · simp [applyOp, deductMoney, ha]
    · simp [applyOp, deductMoney, ha, hlt]
  · intro ha
    simp [applyOp, deductMoney, ha]
  · intro ha hle
    simp [deductMoney, not_le.2 ha, not_lt.2 hle, Wallet.addTransaction, debitTxnRecord]
  · simp [deductMoney, wallet500, wallet200, Wallet.addTransaction, debitTxnRecord, jsStrOr]
    norm_num
  · simp [deductMoney, wallet200, Wallet.addTransaction]
    norm_num

/-! ## Provider status mapping (claim C6)

`OverseasLogisticProvider.mapStatus` (src/providers/overseaslogistic.provider.js)
and `NimbusPostProvider.mapStatus` (src/providers/nimbuspost.provider.js). -/

/-- `Object.values(ORDER_STATUS)` (config/constants.js): the closed internal
status vocabulary. -/
def internalStatuses : List String :=
  ["pending", "confirmed", "picked_up", "in_transit", "out_for_delivery",
   "delivered", "cancelled", "rto"]

/-- The `statusMap` literal of `OverseasLogisticProvider.mapStatus`, in
insertion order. -/
def overseasStatusPairs : List (String × String) :=
  [("PKL", "picked_up"), ("PKD", "picked_up"), ("Picked Up", "picked_up"),
   ("PICKUP", "picked_up"),
   ("IN_TRANSIT", "in_transit"), ("In Transit", "in_transit"),
   ("TRANSIT", "in_transit"), ("DEP", "in_transit"), ("ARR", "in_transit"),
   ("OUT", "out_for_delivery"), ("OFD", "out_for_delivery"),
   ("Out for Delivery", "out_for_delivery"),
   ("DLV", "delivered"), ("DELIVERED", "delivered"), ("Delivered", "delivered"),
   ("POD", "delivered"),
   ("RTO", "rto"), ("RETURN", "rto"), ("Returned", "rto"),
   ("CANCELLED", "cancelled"), ("Cancelled", "cancelled"), ("CANCEL", "cancelled"),
   ("PENDING", "pending"), ("Pending", "pending"),
   ("MANIFESTED", "confirmed"), ("Manifested", "confirmed"), ("BOOKED", "confirmed")]

/-- The two lookup passes of `OverseasLogisticProvider.mapStatus`: the direct
`statusMap[normalizedStatus]` probe — which, being a plain JS indexed read,
also picks up members inherited from `Object.prototype` — then the
case-insensitive scan over `Object.entries` (own entries only).  Every value
this can produce is truthy (the own values are non-empty strings, inherited
members are functions/objects), so the source's `if (statusMap[...])` test
coincides with presence. -/
def overseasLookup (s : String) : Option JsValue :=
  match jsObjGet overseasStatusPairs s with
  | some v => some v
  | none => (assocLookupUpper overseasStatusPairs s).map JsValue.str

/-- `OverseasLogisticProvider.mapStatus`: a falsy (empty/missing) status is
pending; otherwise the trimmed status goes through the map probe (exact —
including inherited `Object.prototype` members — then case-insensitive), then
the keyword heuristic, then defaults to pending. -/
def OverseasLogisticProvider.mapStatus (providerStatus : String) : JsValue :=
  if providerStatus = "" then JsValue.str "pending"
  else
    let normalized := trimStr providerStatus
    match overseasLookup normalized with
    | some v => v
    | none =>
        let lower := lowerStr normalized
        JsValue.str
          (if strIncludes lower "deliver" then "delivered"
           else if strIncludes lower "transit" then "in_transit"
           else if strIncludes lower "pickup" || strIncludes lower "pick" then "picked_up"
           else if strIncludes lower "out for" then "out_for_delivery"
           else if strIncludes lower "return" || strIncludes lower "rto" then "rto"
           else "pending")

/-- The `statusMap` literal of `NimbusPostProvider.mapStatus`. -/
def nimbusStatusPairs : List (String × String) :=
  [("booked", "confirmed"), ("manifested", "in_transit"), ("shipped", "in_transit"),
   ("in_transit", "in_transit"), ("out_for_delivery", "out_for_delivery"),
   ("delivered", "delivered"), ("rto", "rto"), ("rto_delivered", "rto_delivered"),
   ("cancelled", "cancelled"), ("lost", "lost"), ("damaged", "damaged")]

/-- `NimbusPostProvider.mapStatus`:
`statusMap[s?.toLowerCase()] || s?.toLowerCase() || 'pending'` — the indexed
read also reaches `Object.prototype`, so a lower-cased input naming an
inherited member ("constructor", "__proto__") returns that member; otherwise
a mapped status returns its mapping, an unknown non-empty status returns its
own lower-casing, and a missing or empty status returns pending.  (Every
readable value is truthy, so `||` falls through exactly on absence.) -/
def NimbusPostProvider.mapStatus (nimbusStatus : Option String) : JsValue :=
  match nimbusStatus with
  | none => JsValue.str "pending"
  | some s =>
      let l := lowerStr s
      match jsObjGet nimbusStatusPairs l with
      | some v => v
      | none => if l = "" then JsValue.str "pending" else JsValue.str l

lemma assocLookup_mem_values (l : List (String × String)) (k v : String)
    (h : assocLookup l k = some v) : v ∈ l.map Prod.snd := by
  induction l with
  | nil => simp [assocLookup] at h
  | cons p ps ih =>
      by_cases hp : p.1 = k
      · simp [assocLookup, hp] at h
        simp [← h]
      · simp [assocLookup, hp] at h
        exact List.mem_cons_of_mem _ (ih h)

lemma assocLookupUpper_mem_values (l : List (String × String)) (k v : String)
    (h : assocLookupUpper l k = some v) : v ∈ l.map Prod.snd := by
  induction l with
  | nil => simp [assocLookupUpper] at h
  | cons p ps ih =>
      by_cases hp : upperStr p.1 = upperStr k
      · simp [assocLookupUpper, hp] at h
        simp [← h]
      · simp [assocLookupUpper, hp] at h
        exact List.mem_cons_of_mem _ (ih h)

lemma overseasLookup_mem (s : String) (v : JsValue) (hp : s ∉ objectProtoProps)
    (h : overseasLookup s = some v) : ∃ t ∈ internalStatuses, v = JsValue.str t := by
  have hall : ∀ x ∈ overseasStatusPairs.map Prod.snd, x ∈ internalStatuses := by decide
  unfold overseasLookup jsObjGet at h
  cases hd : assocLookup overseasStatusPairs s with
  | some w =>
      rw [hd] at h
      cases h
      exact ⟨w, hall _ (assocLookup_mem_values _ _ _ hd), rfl⟩
  | none =>
      rw [hd, if_neg hp] at h
      cases hu : assocLookupUpper overseasStatusPairs s with
      | some w =>
          rw [hu] at h
          cases h
          exact ⟨w, hall _ (assocLookupUpper_mem_values _ _ _ hu), rfl⟩
      | none => rw [hu] at h; cases h

lemma overseasLookup_proto (s : String) (hp : s ∈ objectProtoProps) :
    overseasLookup s = some (JsValue.protoMember s) := by
  have hown : assocLookup overseasStatusPairs s = none := by
    fin_cases hp <;> decide
  unfold overseasLookup jsObjGet
  rw [hown, if_pos hp]

/-- C6 (amended).  Status-mapping totality: both adapters' `mapStatus` are
total functions that never raise.  For `OverseasLogisticProvider`, any input
whose trimmed form is not an inherited `Object.prototype` property name maps
into the closed internal status set — recognized vocabulary directly
(case-insensitively), unmapped vocabulary by the substring heuristic
(deliver, transit, pickup/pick, "out for", return/rto, in that order), and
anything else to pending ("Out for Delivery" → out_for_delivery, "OFD" →
out_for_delivery, "weirdstatus123" → pending) — while an input naming an
inherited member (e.g. "toString") returns that member.  For
`NimbusPostProvider`, mapped vocabulary maps through its table, a missing or
empty status yields pending, a lower-casing that names an inherited member
("constructor", "__proto__") returns that member, and any other unknown
non-empty input yields its own lower-casing, not pending. -/
theorem mapStatus_total_contract :
    (∀ s, trimStr s ∉ objectProtoProps →
      ∃ t ∈ internalStatuses, OverseasLogisticProvider.mapStatus s = JsValue.str t) ∧
    (∀ s, s ≠ "" → trimStr s ∈ objectProtoProps →
      OverseasLogisticProvider.mapStatus s = JsValue.protoMember (trimStr s)) ∧
    OverseasLogisticProvider.mapStatus "Out for Delivery" = JsValue.str "out_for_delivery" ∧
    OverseasLogisticProvider.mapStatus "OFD" = JsValue.str "out_for_delivery" ∧
    OverseasLogisticProvider.mapStatus "weirdstatus123" = JsValue.str "pending" ∧
    OverseasLogisticProvider.mapStatus "" = JsValue.str "pending" ∧
    (∀ s, s ≠ "" → overseasLookup (trimStr s) = none →
      ((strIncludes (lowerStr (trimStr s)) "deliver" = true →
          OverseasLogisticProvider.mapStatus s = JsValue.str "delivered") ∧
       (strIncludes (lowerStr (trimStr s)) "deliver" = false →
        strIncludes (lowerStr (trimStr s)) "transit" = true →
          OverseasLogisticProvider.mapStatus s = JsValue.str "in_transit") ∧
       (strIncludes (lowerStr (trimStr s)) "deliver" = false →
        strIncludes (lowerStr (trimStr s)) "transit" = false →
        strIncludes (lowerStr (trimStr s)) "pick" = true →
          OverseasLogisticProvider.mapStatus s = JsValue.str "picked_up") ∧
       (strIncludes (lowerStr (trimStr s)) "deliver" = false →
        strIncludes (lowerStr (trimStr s)) "transit" = false →
        strIncludes (lowerStr (trimStr s)) "pickup" = false →
        strIncludes (lowerStr (trimStr s)) "pick" = false →
        strIncludes (lowerStr (trimStr s)) "out for" = false →
        strIncludes (lowerStr (trimStr s)) "return" = true →
          OverseasLogisticProvider.mapStatus s = JsValue.str "rto") ∧
       (strIncludes (lowerStr (trimStr s)) "deliver" = false →
        strIncludes (lowerStr (trimStr s)) "transit" = false →
        strIncludes (lowerStr (trimStr s)) "pickup" = false →
        strIncludes (lowerStr (trimStr s)) "pick" = false →
        strIncludes (lowerStr (trimStr s)) "out for" = false →
        strIncludes (lowerStr (trimStr s)) "return" = false →
        strIncludes (lowerStr (trimStr s)) "rto" = false →
          OverseasLogisticProvider.mapStatus s = JsValue.str "pending"))) ∧
    NimbusPostProvider.mapStatus none = JsValue.str "pending" ∧
    (∀ s, lowerStr s ∈ objectProtoProps →
        NimbusPostProvider.mapStatus (some s) = JsValue.protoMember (lowerStr s)) ∧
    (∀ s, jsObjGet nimbusStatusPairs (lowerStr s) = none → lowerStr s ≠ "" →
        NimbusPostProvider.mapStatus (some s) = JsValue.str (lowerStr s)) ∧
    (∀ s, jsObjGet nimbusStatusPairs (lowerStr s) = none → lowerStr s = "" →
        NimbusPostProvider.mapStatus (some s) = JsValue.str "pending") := by
  refine ⟨?_, ?_, by decide, by decide, by decide, by decide, ?_, by decide, ?_, ?_, ?_⟩
  · intro s hp
    by_cases h0 : s = ""
    · exact ⟨"pending", by decide, by simp [OverseasLogisticProvider.mapStatus, h0]⟩
    · cases hl : overseasLookup (trimStr s) with
      | some v =>
          obtain ⟨t, ht, rfl⟩ := overseasLookup_mem _ _ hp hl
          exact ⟨t, ht, by simp [OverseasLogisticProvider.mapStatus, h0, hl]⟩
      | none =>
          simp only [OverseasLogisticProvider.mapStatus, h0, if_false, hl]
          split_ifs <;> exact ⟨_, by decide, rfl⟩
  · intro s h0 hp
    simp [OverseasLogisticProvider.mapStatus, h0, overseasLookup_proto _ hp]
  · intro s h0 hl
    refine ⟨?_, ?_, ?_, ?_, ?_⟩ <;> intros <;>
      simp_all [OverseasLogisticProvider.mapStatus]
  · intro s hp
    have hown : assocLookup nimbusStatusPairs (lowerStr s) = none := by
      revert hp
      generalize lowerStr s = l
      intro hp
      fin_cases hp <;> decide
    simp [NimbusPostProvider.mapStatus, jsObjGet, hown, hp]
  · intro s hlk hne
    simp [NimbusPostProvider.mapStatus, hlk, hne]
  · intro s hlk he
    simp only [NimbusPostProvider.mapStatus, he]
    decide

/-- C6 counterexample: on the NimbusPost adapter, the unknown input
"weirdstatus123" maps to itself, not to `pending`, and "OFD" maps to "ofd",
not to `out_for_delivery`; moreover an indexed read of an inherited
`Object.prototype` key makes both adapters return a non-status value —
`mapStatus "toString"` on the overseas adapter and
`mapStatus (some "Constructor")` on NimbusPost return the inherited member,
which lies in no internal status. -/
theorem mapStatus_default_counterexample :
    NimbusPostProvider.mapStatus (some "weirdstatus123") = JsValue.str "weirdstatus123" ∧
    NimbusPostProvider.mapStatus (some "OFD") = JsValue.str "ofd" ∧
    JsValue.str "weirdstatus123" ≠ JsValue.str "pending" ∧
    JsValue.str "ofd" ≠ JsValue.str "out_for_delivery" ∧
    OverseasLogisticProvider.mapStatus "toString" = JsValue.protoMember "toString" ∧
    (∀ t ∈ internalStatuses, OverseasLogisticProvider.mapStatus "toString" ≠ JsValue.str t) ∧
    NimbusPostProvider.mapStatus (some "Constructor") = JsValue.protoMember "constructor" ∧
    NimbusPostProvider.mapStatus (some "__proto__") = JsValue.protoMember "__proto__" := by
  decide

/-! ## Order model (src/models Order schema, src/services/order.service.js)

Statuses and partner identifiers are the strings the JavaScript code uses.
The database is a list of order documents; `find`/`save`/`delete` are list
operations keyed by the document id. -/

/-- A pickup/delivery address block (required fields of the Order schema). -/
structure AddressDetails where
  name : String
  phone : String
  address : String
  pincode : String
  city : String
  state : String
  deriving DecidableEq, Repr

/-- Package dimensions. -/
structure Dimensions where
  length : ℚ
  width : ℚ
  height : ℚ
  deriving DecidableEq, Repr

/-- `packageDetails` of the Order schema. -/
structure PackageDetails where
  weight : ℚ
  dimensions : Dimensions
  description : String
  declaredValue : ℚ
  deriving DecidableEq, Repr

/-- `pricing` of the Order schema, as `createOrder` persists it. -/
structure Pricing where
  baseRate : ℚ
  additionalCharges : ℚ
  totalAmount : ℚ
  currency : String
  deriving DecidableEq, Repr

/-- `payment` sub-record of the Order schema. -/
structure Payment where
  status : String
  method : String
  transactionId : Option String
  paidAt : Option Nat
  deriving DecidableEq, Repr

/-- One entry `updateOrderStatus` appends to `metadata.statusHistory`:
the new and previous status, the update time, the source, and the scalar
part of the webhook's `trackingData` payload. -/
structure HistoryEntry where
  status : String
  previousStatus : String
  updatedAt : Nat
  source : String
  trackingUrl : Option String
  trackingExtra : List (String × String)
  deriving DecidableEq, Repr

/-- The `trackingData` payload a webhook may attach: an arbitrary JSON object,
flattened here into the keys the update path reads (`trackingUrl`), the keys
whose spread would collide with the computed ones (`statusHistory`,
`lastTrackingUpdate`), and the remaining string-valued keys. -/
structure TrackingData where
  trackingUrl : Option String
  statusHistory : Option (List HistoryEntry)
  lastTrackingUpdate : Option Nat
  extra : List (String × String)
  deriving DecidableEq, Repr

/-- The `trackingData` of a plain reconciler/webhook call that carries no
payload (`{}`). -/
def emptyTrackingData : TrackingData :=
  { trackingUrl := none, statusHistory := none, lastTrackingUpdate := none, extra := [] }

/-- The order's free-form `metadata` bag, flattened into the keys the
status-update path writes plus the remaining string-valued keys. -/
structure Metadata where
  statusHistory : List HistoryEntry
  lastTrackingUpdate : Option Nat
  trackingUrl : Option String
  extra : List (String × String)
  deriving DecidableEq, Repr

/-- The schema default `metadata: {}`. -/
def emptyMetadata : Metadata :=
  { statusHistory := [], lastTrackingUpdate := none, trackingUrl := none, extra := [] }

/-- An order document. -/
structure Order where
  id : String
  user : String
  orderNumber : String
  orderType : String
  pickupDetails : AddressDetails
  deliveryDetails : AddressDetails
  packageDetails : PackageDetails
  deliveryPartner : String
  pricing : Pricing
  payment : Payment
  status : String
  awb : Option String
  trackingUrl : Option String
  metadata : Metadata
  deriving DecidableEq, Repr

/-- `save()` on a found document: replace the stored document with the same id. -/
def replaceOrder (db : List Order) (o2 : Order) : List Order :=
  db.map (fun o => if o.id = o2.id then o2 else o)

/-! ## Rate calculation (OrderService.calculateRate) -/

/-- The partner's raw rate response, with every field optional as in the
heterogeneous JSON the adapters return. -/
structure RateResponse where
  baseRate : Option ℚ
  rate : Option ℚ
  amount : Option ℚ
  additionalCharges : Option ℚ
  gst : Option ℚ
  dph : Option ℚ
  totalAmount : Option ℚ
  currency : Option String
  estimatedDelivery : Option String
  serviceType : Option String
  deriving DecidableEq, Repr

/-- The normalized quote `calculateRate` returns.  The fallback branch omits
`gst`/`dph` (left undefined) and carries the note marking the fallback. -/
structure Quote where
  baseRate : ℚ
  additionalCharges : ℚ
  gst : Option ℚ
  dph : Option ℚ
  totalAmount : ℚ
  currency : String
  partner : String
  estimatedDelivery : Option String
  serviceType : String
  note : Option String
  deriving DecidableEq, Repr

/-- `Object.values(DELIVERY_PARTNERS).includes(deliveryPartner)`
(config/constants.js: nimbuspost, overseas_logistic). -/
def validPartner (p : String) : Bool :=
  p == "nimbuspost" || p == "overseas_logistic"

/-- The error for an unknown delivery partner. -/
def invalidPartnerError : AppError :=
  { message := "Invalid delivery partner", statusCode := 400 }

/-- The deterministic fallback quote of `calculateRate`: ₹50 base + ₹10/kg. -/
def fallbackQuote (deliveryPartner : String) (weight : ℚ) : Quote :=
  { baseRate := 50, additionalCharges := weight * 10, gst := none, dph := none,
    totalAmount := 50 + weight * 10, currency := "INR", partner := deliveryPartner,
    estimatedDelivery := some "3-5 business days", serviceType := "standard",
    note := some "Fallback calculation used" }

/-- `OrderService.calculateRate`: validates the partner, then normalizes the
provider's response; on provider failure it falls back to the deterministic
₹50 + ₹10/kg estimate instead of propagating the error.  The provider call's
outcome is the explicit `providerResult` parameter. -/
def calculateRate (deliveryPartner : String) (weight : ℚ)
    (providerResult : Except String RateResponse) : Except AppError Quote :=
  if ¬ validPartner deliveryPartner then
    Except.error invalidPartnerError
  else
    match providerResult with
    | Except.ok r =>
        let baseRate := jsNumOr r.baseRate (jsNumOr r.rate (jsNumOr r.amount 0))
        let additionalCharges := jsNumOr r.additionalCharges 0
        let gst := jsNumOr r.gst 0
        let dph := jsNumOr r.dph 0
        let totalAmount := jsNumOr r.totalAmount (baseRate + additionalCharges + gst + dph)
        Except.ok
          { baseRate := baseRate, additionalCharges := additionalCharges,
            gst := some gst, dph := some dph, totalAmount := totalAmount,
            currency := jsStrOr r.currency "INR", partner := deliveryPartner,
            estimatedDelivery := jsStrOrOpt r.estimatedDelivery none,
            serviceType := jsStrOr r.serviceType "standard", note := none }
    | Except.error _ => Except.ok (fallbackQuote deliveryPartner weight)

/-! ## Order creation (OrderService.createOrder) -/

/-- The request body of `createOrder` after destructuring. -/
structure OrderData where
  pickupDetails : AddressDetails
  deliveryDetails : AddressDetails
  packageDetails : PackageDetails
  deliveryPartner : String
  orderType : String
  deriving DecidableEq, Repr

/-- Decimal rendering of an amount for the insufficient-balance message. -/
def moneyStr (q : ℚ) : String :=
  toString q.num ++ (if q.den = 1 then "" else "/" ++ toString q.den)

/-- The insufficient-balance error `createOrder` throws before persisting
anything: it carries the required and the available amount. -/
def insufficientWalletError (required available : ℚ) : AppError :=
  { message := "Insufficient wallet balance. Required: ₹" ++ moneyStr required ++
      ", Available: ₹" ++ moneyStr available,
    statusCode := 400 }

/-- The order document `Order.create` persists in step 4: `Pending` status,
`payment.status = 'pending'`, no AWB, empty metadata. -/
def newOrderDoc (userId : String) (od : OrderData) (pricing : Quote)
    (newId orderNumber : String) : Order :=
  { id := newId, user := userId, orderNumber := orderNumber,
    orderType := od.orderType,
    pickupDetails := od.pickupDetails, deliveryDetails := od.deliveryDetails,
    packageDetails := od.packageDetails, deliveryPartner := od.deliveryPartner,
    pricing := { baseRate := pricing.baseRate,
                 additionalCharges := pricing.additionalCharges,
                 totalAmount := pricing.totalAmount, currency := pricing.currency },
    payment := { status := "pending", method := "wallet",
                 transactionId := none, paidAt := none },
    status := "pending", awb := none, trackingUrl := none,
    metadata := emptyMetadata }

/-- What `createOrder` returns to the caller on success: the order summary
plus the wallet balance after the debit. -/
structure CreateOrderResult where
  orderId : String
  orderNumber : String
  status : String
  pricing : Pricing
  payment : Payment
  orderType : String
  walletBalance : ℚ
  deriving DecidableEq, Repr

/-- The state `createOrder` leaves behind (the caller's wallet and the order
collection) together with its returned value or error. -/
structure CreateOutcome where
  wallet : Wallet
  db : List Order
  result : Except AppError CreateOrderResult
  deriving Repr

/-- `OrderService.createOrder`: rate (with fallback) → balance check →
persist pending order → wallet debit → mark paid.  On a debit failure the
just-created order is deleted (`findByIdAndDelete`) and the error re-raised.
Shipment creation is not part of this function: it is fired without being
awaited (see `createShipmentWithPartner`).  `payment.transactionId` stays
`null` because the service reports the transaction as a plain object whose
`_id` is undefined. -/
def createOrder (w : Wallet) (db : List Order) (userId : String) (od : OrderData)
    (providerResult : Except String RateResponse)
    (newId orderNumber : String) (now : Nat) : CreateOutcome :=
  match calculateRate od.deliveryPartner od.packageDetails.weight providerResult with
  | Except.error e => { wallet := w, db := db, result := Except.error e }
  | Except.ok pricing =>
      if w.balance < pricing.totalAmount then
        { wallet := w, db := db,
          result := Except.error (insufficientWalletError pricing.totalAmount w.balance) }
      else
        let order := newOrderDoc userId od pricing newId orderNumber
        let db2 := db ++ [order]
        match deductMoney w pricing.totalAmount
            (some ("Payment for " ++ od.orderType ++ " order " ++ orderNumber))
            (some newId) none with
        | Except.ok (w2, _) =>
            let order2 :=
              { order with payment :=
                  { status := "completed", method := "wallet",
                    transactionId := none, paidAt := some now } }
            { wallet := w2, db := replaceOrder db2 order2,
              result := Except.ok
                { orderId := newId, orderNumber := orderNumber,
                  status := order2.status, pricing := order2.pricing,
                  payment := order2.payment, orderType := od.orderType,
                  walletBalance := w2.balance } }
        | Except.error e =>
            { wallet := w, db := db2.filter (fun o => ¬ o.id = newId),
              result := Except.error e }

/-! ## Asynchronous shipment booking (OrderService, private helper) -/

/-- The partner's shipment-creation response. -/
structure Shipment where
  awb : Option String
  trackingNumber : Option String
  trackingUrl : Option String
  deriving DecidableEq, Repr

/-- `OrderService._createShipmentWithPartner`, fired after `createOrder` has
already returned: on success it attaches the AWB and tracking URL and
advances the order to `confirmed`; on failure it swallows the error and
returns the order unchanged (still `pending`, funds already captured). -/
def createShipmentWithPartner (o : Order) (shipmentResult : Except String Shipment) :
    Order :=
  match shipmentResult with
  | Except.ok s =>
      { o with awb := jsStrOrOpt s.awb s.trackingNumber,
               trackingUrl := s.trackingUrl,
               status := "confirmed" }
  | Except.error _ => o

/-! ## Order lookup with authorization (OrderService.getOrderById) -/

/-- One hex digit of a MongoDB ObjectId. -/
def isHexChar (c : Char) : Bool :=
  c.isDigit || ('a' ≤ c && c ≤ 'f') || ('A' ≤ c && c ≤ 'F')

/-- The `/^[0-9a-fA-F]{24}$/` test of `getOrderById`. -/
def isObjectIdString (s : String) : Bool :=
  s.data.length == 24 && s.data.all isHexChar

/-- `OrderService.getOrderById`: an ObjectId-shaped identifier is looked up by
document id (any owner), anything else by order number scoped to the caller;
a missing order is a 404, a found order owned by someone else a 403. -/
def getOrderById (db : List Order) (orderId : String) (userId : String) :
    Except AppError Order :=
  let found :=
    if isObjectIdString orderId then
      db.find? (fun o => o.id == orderId)
    else
      db.find? (fun o => o.orderNumber == orderId && o.user == userId)
  match found with
  | none => Except.error { message := "Order not found", statusCode := 404 }
  | some o =>
      if o.user ≠ userId then
        Except.error { message := "Unauthorized access to order", statusCode := 403 }
      else
        Except.ok o

/-! ## Status updates (OrderService.updateOrderStatus, webhook path) -/

/-- JS object spread for the string-valued keys: the right-hand keys
override the left-hand ones. -/
def mergePairs (old new : List (String × String)) : List (String × String) :=
  old.filter (fun p => ¬ new.any (fun q => q.1 = p.1)) ++ new

/-- The metadata written by `updateOrderStatus`:
`{ ...order.metadata, statusHistory: [...old, entry], lastTrackingUpdate: now,
...trackingData }` — the trailing spread of the raw `trackingData` payload
overrides the computed `statusHistory` and `lastTrackingUpdate` keys when the
payload carries keys of those names. -/
def applyStatusMetadata (m : Metadata) (entry : HistoryEntry) (td : TrackingData)
    (now : Nat) : Metadata :=
  { statusHistory :=
      match td.statusHistory with
      | some h => h
      | none => m.statusHistory ++ [entry]
    lastTrackingUpdate := some (td.lastTrackingUpdate.getD now)
    trackingUrl :=
      match td.trackingUrl with
      | some u => some u
      | none => m.trackingUrl
    extra := mergePairs m.extra td.extra }

/-- The history entry `updateOrderStatus` builds for one update. -/
def statusHistoryEntry (status previousStatus : String) (td : TrackingData)
    (partner : Option String) (now : Nat) : HistoryEntry :=
  { status := status, previousStatus := previousStatus, updatedAt := now,
    source := jsStrOr partner "system",
    trackingUrl := td.trackingUrl, trackingExtra := td.extra }

/-- The updated order document: status overwritten, AWB written only when the
update carries one and the order has none, tracking URL overwritten when the
payload carries a truthy one, metadata updated per `applyStatusMetadata`. -/
def applyStatusToOrder (o : Order) (awb : Option String) (status : String)
    (td : TrackingData) (partner : Option String) (now : Nat) : Order :=
  { o with
    status := status
    awb := if strTruthy awb ∧ ¬ strTruthy o.awb then awb else o.awb
    trackingUrl := if strTruthy td.trackingUrl then td.trackingUrl else o.trackingUrl
    metadata := applyStatusMetadata o.metadata
      (statusHistoryEntry status o.status td partner now) td now }

/-- `OrderService.updateOrderStatus` (the webhook and reconciler path):
resolve the order by id, else by AWB (400 when neither identifier is given,
404 when no order matches), validate the status against the closed internal
enum (400 otherwise), then overwrite the status, write the AWB/tracking URL
per `applyStatusToOrder`, append the history entry and save.  Returns the new
database and the updated order. -/
def updateOrderStatus (db : List Order) (orderId : Option String)
    (awb : Option String) (status : String) (td : TrackingData)
    (partner : Option String) (now : Nat) :
    Except AppError (List Order × Order) :=
  let go : Option Order → Except AppError (List Order × Order) := fun found =>
    match found with
    | none => Except.error { message := "Order not found", statusCode := 404 }
    | some o =>
        if status ∉ internalStatuses then
          Except.error { message := "Invalid order status", statusCode := 400 }
        else
          let o2 := applyStatusToOrder o awb status td partner now
          Except.ok (replaceOrder db o2, o2)
  if strTruthy orderId then
    go (db.find? (fun o => some o.id == orderId))
  else if strTruthy awb then
    go (db.find? (fun o => o.awb == awb))
  else
    Except.error { message := "Order ID or AWB is required", statusCode := 400 }

/-! ## Named errors of the order service -/

/-- The 404 error for a missing order. -/
def orderNotFoundError : AppError := { message := "Order not found", statusCode := 404 }

/-- The 403 error for an order owned by another user. -/
def unauthorizedOrderError : AppError :=
  { message := "Unauthorized access to order", statusCode := 403 }

/-- The 400 error when a status update names neither an order id nor an AWB. -/
def missingIdError : AppError := { message := "Order ID or AWB is required", statusCode := 400 }

/-- The 400 error for a status outside the internal enum. -/
def invalidStatusError : AppError := { message := "Invalid order status", statusCode := 400 }

/-! ## Concrete fixtures used by witnesses and counterexamples -/

/-- A concrete address block. -/
def sampleAddr : AddressDetails :=
  { name := "Asha", phone := "9000000000", address := "12 MG Road",
    pincode := "110001", city := "Delhi", state := "DL" }

/-- A concrete 2 kg domestic order request on the nimbuspost partner. -/
def sampleOrderData : OrderData :=
  { pickupDetails := sampleAddr, deliveryDetails := sampleAddr,
    packageDetails := { weight := 2, dimensions := { length := 10, width := 10, height := 10 },
                        description := "", declaredValue := 0 },
    deliveryPartner := "nimbuspost", orderType := "domestic" }

/-- A wallet holding ₹1000. -/
def wallet1000 : Wallet := { balance := 1000, transactions := [] }

/-- A concrete `createOrder` run in which the rate provider is down, so the
fallback quote (₹50 + ₹10/kg = ₹70 for 2 kg) prices the order. -/
def fallbackRun : CreateOutcome :=
  createOrder wallet1000 [] "u1" sampleOrderData (Except.error "provider down") "o1" "ORD1" 7

/-- A persisted order owned by user `u1`. -/
def foreignOrder : Order :=
  { id := "aaaaaaaaaaaaaaaaaaaaaaaa", user := "u1", orderNumber := "ORD1",
    orderType := "domestic", pickupDetails := sampleAddr, deliveryDetails := sampleAddr,
    packageDetails := { weight := 1, dimensions := { length := 1, width := 1, height := 1 },
                        description := "", declaredValue := 0 },
    deliveryPartner := "nimbuspost",
    pricing := { baseRate := 50, additionalCharges := 10, totalAmount := 60, currency := "INR" },
    payment := { status := "completed", method := "wallet", transactionId := none,
                 paidAt := some 1 },
    status := "pending", awb := none, trackingUrl := none, metadata := emptyMetadata }

/-- A webhook `trackingData` payload that itself carries a `statusHistory`
key (here an empty history). -/
def clobberTD : TrackingData :=
  { trackingUrl := none, statusHistory := some [], lastTrackingUpdate := none, extra := [] }

/-- A provider rate response whose quoted total is not positive. -/
def negRate : RateResponse :=
  { baseRate := some 10, rate := none, amount := none, additionalCharges := none,
    gst := none, dph := none, totalAmount := some (-5), currency := none,
    estimatedDelivery := none, serviceType := none }

/-- The quote `calculateRate` normalizes `negRate` into. -/
def negQuote : Quote :=
  { baseRate := 10, additionalCharges := 0, gst := some 0, dph := some 0,
    totalAmount := -5, currency := "INR", partner := "nimbuspost",
    estimatedDelivery := none, serviceType := "standard", note := none }

/-! ## Claims C3, C4, C5, C7, C8, C9, C10 -/

/-- C3.  When the quoted total exceeds the wallet balance, `createOrder`
fails with the insufficient-balance error carrying the required and available
amounts, and neither an order document nor a wallet transaction is created:
the outcome's wallet and database are the initial ones. -/
theorem createOrder_insufficient_funds (w : Wallet) (db : List Order)
    (userId : String) (od : OrderData) (pr : Except String RateResponse)
    (newId orderNumber : String) (now : Nat) (q : Quote) :
    (calculateRate od.deliveryPartner od.packageDetails.weight pr = Except.ok q →
     w.balance < q.totalAmount →
       createOrder w db userId od pr newId orderNumber now =
         { wallet := w, db := db,
           result := Except.error (insufficientWalletError q.totalAmount w.balance) }) ∧
    (insufficientWalletError q.totalAmount w.balance).message =
      "Insufficient wallet balance. Required: ₹" ++ moneyStr q.totalAmount ++
        ", Available: ₹" ++ moneyStr w.balance ∧
    (insufficientWalletError q.totalAmount w.balance).statusCode = 400 := by
  refine ⟨?_, rfl, rfl⟩
  intro hq hlt
  simp only [createOrder, hq]
  rw [if_pos hlt]

/-- C4.  Compensating delete: when the wallet debit fails after the pending
order has been persisted (here because the provider quoted a non-positive
total, the only debit failure reachable once the balance check passed), the
just-created order is deleted again and the debit error is re-raised, so the
outcome's database equals the initial one and the wallet is untouched. -/
theorem createOrder_compensating_delete (w : Wallet) (db : List Order)
    (userId : String) (od : OrderData) (pr : Except String RateResponse)
    (newId orderNumber : String) (now : Nat) (q : Quote)
    (hq : calculateRate od.deliveryPartner od.packageDetails.weight pr = Except.ok q)
    (hbal : ¬ w.balance < q.totalAmount)
    (hle : q.totalAmount ≤ 0)
    (hfresh : ∀ o ∈ db, o.id ≠ newId) :
    createOrder w db userId od pr newId orderNumber now =
      { wallet := w, db := db,
        result := Except.error { message := "Amount must be greater than 0",
                                 statusCode := 400 } } := by
  simp only [createOrder, hq]
  rw [if_neg hbal]
  have hded : deductMoney w q.totalAmount
      (some ("Payment for " ++ od.orderType ++ " order " ++ orderNumber))
      (some newId) none =
      Except.error { message := "Amount must be greater than 0", statusCode := 400 } := by
    simp [deductMoney, hle]
  rw [hded]
  have hfilter : List.filter (fun o => decide ¬o.id = newId)
      (db ++ [newOrderDoc userId od q newId orderNumber]) = db := by
    rw [List.filter_append]
    have h1 : db.filter (fun o => decide ¬o.id = newId) = db :=
      List.filter_eq_self.mpr (by
        intro o ho
        simpa using hfresh o ho)
    have h2 : [newOrderDoc userId od q newId orderNumber].filter
        (fun o => decide ¬o.id = newId) = [] := by
      simp [newOrderDoc]
    rw [h1, h2, List.append_nil]
  simp only [hfilter]

/-- C4 witness: a concrete run (₹1000 balance, provider quotes −5) in which
the order is persisted, the debit then fails, and the outcome shows the order
deleted and the error surfaced. -/
theorem createOrder_compensating_delete_witness :
    createOrder wallet1000 [] "u1" sampleOrderData (Except.ok negRate) "o1" "ORD1" 7 =
      { wallet := wallet1000, db := [],
        result := Except.error { message := "Amount must be greater than 0",
                                 statusCode := 400 } } :=
  createOrder_compensating_delete wallet1000 [] "u1" sampleOrderData (Except.ok negRate)
    "o1" "ORD1" 7 negQuote
    (by simp [calculateRate, validPartner, sampleOrderData, negRate, negQuote,
          jsNumOr, jsStrOr, jsStrOrOpt])
    (by norm_num [wallet1000, negQuote])
    (by norm_num [negQuote])
    (by simp)

/-- C5 (amended).  On a provider failure `calculateRate` swallows the error
and returns the deterministic fallback quote — base 50, surcharge weight×10,
total 50 + weight×10, identical on every call with the same inputs — and the
fallback is marked only in the returned quote's `note` field: the persisted
order document always carries empty metadata, so no fallback marker reaches
the stored order. -/
theorem calculateRate_fallback_formula (p : String) (weight : ℚ) (e1 e2 : String)
    (userId : String) (od : OrderData) (q : Quote) (newId orderNumber : String) :
    (validPartner p = true →
        calculateRate p weight (Except.error e1) = Except.ok (fallbackQuote p weight)) ∧
    calculateRate p weight (Except.error e1) = calculateRate p weight (Except.error e2) ∧
    (fallbackQuote p weight).baseRate = 50 ∧
    (fallbackQuote p weight).additionalCharges = weight * 10 ∧
    (fallbackQuote p weight).totalAmount = 50 + weight * 10 ∧
    (fallbackQuote p weight).note = some "Fallback calculation used" ∧
    (newOrderDoc userId od q newId orderNumber).metadata = emptyMetadata := by
  refine ⟨?_, ?_, rfl, rfl, rfl, rfl, rfl⟩
  · intro hv
    simp [calculateRate, hv]
  · simp [calculateRate]

/-- C5 counterexample: in the concrete fallback run the order creation
succeeds on the ₹70 fallback price, yet the persisted order's metadata is the
empty default — the fallback marker lives only in the quote's `note`, never
in the stored order's metadata as claimed. -/
theorem fallback_not_marked_counterexample :
    fallbackRun.result =
      Except.ok
        { orderId := "o1", orderNumber := "ORD1", status := "pending",
          pricing := { baseRate := 50, additionalCharges := 20,
                       totalAmount := 70, currency := "INR" },
          payment := { status := "completed", method := "wallet",
                       transactionId := none, paidAt := some 7 },
          orderType := "domestic", walletBalance := 930 } ∧
    fallbackRun.db.map Order.metadata = [emptyMetadata] ∧
    (fallbackQuote "nimbuspost" 2).note = some "Fallback calculation used" := by
  refine ⟨?_, ?_, rfl⟩ <;>
    simp [fallbackRun, createOrder, calculateRate, validPartner, sampleOrderData,
      wallet1000, deductMoney, Wallet.addTransaction, newOrderDoc, replaceOrder,
      fallbackQuote, emptyMetadata, jsStrOr] <;> norm_num

/-- C7 (amended).  Status-update contract: no identifier → 400; no matching
order (by id or by AWB) → 404; a status outside the internal enum → 400; a
valid update overwrites the status and saves `applyStatusToOrder`, which —
provided the webhook's `trackingData` payload does not itself carry a
`statusHistory` key — appends exactly one entry recording the new and
previous status to the order's metadata. -/
theorem updateOrderStatus_contract (db : List Order) (orderId awb : Option String)
    (status : String) (td : TrackingData) (partner : Option String) (now : Nat)
    (o : Order) :
    (strTruthy orderId = false → strTruthy awb = false →
      updateOrderStatus db orderId awb status td partner now =
        Except.error missingIdError) ∧
    (strTruthy orderId = true →
      db.find? (fun x => some x.id == orderId) = none →
        updateOrderStatus db orderId awb status td partner now =
          Except.error orderNotFoundError) ∧
    (strTruthy orderId = false → strTruthy awb = true →
      db.find? (fun x => x.awb == awb) = none →
        updateOrderStatus db orderId awb status td partner now =
          Except.error orderNotFoundError) ∧
    (strTruthy orderId = true →
      db.find? (fun x => some x.id == orderId) = some o →
      status ∉ internalStatuses →
        updateOrderStatus db orderId awb status td partner now =
          Except.error invalidStatusError) ∧
    (strTruthy orderId = true →
      db.find? (fun x => some x.id == orderId) = some o →
      status ∈ internalStatuses →
        updateOrderStatus db orderId awb status td partner now =
          Except.ok (replaceOrder db (applyStatusToOrder o awb status td partner now),
            applyStatusToOrder o awb status td partner now)) ∧
    (strTruthy orderId = false → strTruthy awb = true →
      db.find? (fun x => x.awb == awb) = some o →
      status ∈ internalStatuses →
        updateOrderStatus db orderId awb status td partner now =
          Except.ok (replaceOrder db (applyStatusToOrder o awb status td partner now),
            applyStatusToOrder o awb status td partner now)) ∧
    (td.statusHistory = none →
      (applyStatusToOrder o awb status td partner now).metadata.statusHistory =
        o.metadata.statusHistory ++
          [statusHistoryEntry status o.status td partner now]) ∧
    (statusHistoryEntry status o.status td partner now).status = status ∧
    (statusHistoryEntry status o.status td partner now).previousStatus = o.status ∧
    (applyStatusToOrder o awb status td partner now).status = status := by
  refine ⟨?_, ?_, ?_, ?_, ?_, ?_, ?_, rfl, rfl, rfl⟩
  · intro h1 h2
    simp [updateOrderStatus, h1, h2, missingIdError]
  · intro h1 hnone
    simp [updateOrderStatus, h1, hnone, orderNotFoundError]
  · intro h1 h2 hnone
    simp [updateOrderStatus, h1, h2, hnone, orderNotFoundError]
  · intro h1 hsome hbad
    simp [updateOrderStatus, h1, hsome, hbad, invalidStatusError]
  · intro h1 hsome hmem
    simp [updateOrderStatus, h1, hsome, hmem]
  · intro h1 h2 hsome hmem
    simp [updateOrderStatus, h1, h2, hsome, hmem]
  · intro hnone
    simp [applyStatusToOrder, applyStatusMetadata, hnone]

/-- C7 counterexample: a successful status update whose `trackingData`
payload carries its own `statusHistory` key ends with that payload's history
(here empty) instead of the appended entry — the update succeeded, yet
nothing was appended to `statusHistory`. -/
theorem statusHistory_clobber_counterexample :
    ∃ p, updateOrderStatus [foreignOrder] (some "aaaaaaaaaaaaaaaaaaaaaaaa") none
        "confirmed" clobberTD none 9 = Except.ok p ∧
      p.2.status = "confirmed" ∧
      p.2.metadata.statusHistory = [] ∧
      foreignOrder.metadata.statusHistory ++
        [statusHistoryEntry "confirmed" foreignOrder.status clobberTD none 9] ≠ [] := by
  refine ⟨_, rfl, rfl, rfl, by simp⟩

/-- C8.  Decoupled shipment booking: `createOrder` succeeds and returns the
pending order with completed payment without taking any shipment input at
all (the booking is fired after the response); the asynchronous
`createShipmentWithPartner` then attaches the AWB and tracking URL and
advances the order to confirmed on success, and on failure swallows the
error and leaves the order exactly as it was — still pending with payment
completed. -/
theorem shipment_booking_decoupled (o : Order) (err : String) (s : Shipment)
    (w : Wallet) (db : List Order) (userId : String) (od : OrderData)
    (pr : Except String RateResponse) (newId orderNumber : String) (now : Nat)
    (q : Quote) :
    createShipmentWithPartner o (Except.error err) = o ∧
    createShipmentWithPartner o (Except.ok s) =
      { o with awb := jsStrOrOpt s.awb s.trackingNumber,
               trackingUrl := s.trackingUrl, status := "confirmed" } ∧
    (calculateRate od.deliveryPartner od.packageDetails.weight pr = Except.ok q →
     ¬ w.balance < q.totalAmount →
     0 < q.totalAmount →
       (createOrder w db userId od pr newId orderNumber now).result =
         Except.ok
           { orderId := newId, orderNumber := orderNumber, status := "pending",
             pricing := (newOrderDoc userId od q newId orderNumber).pricing,
             payment := { status := "completed", method := "wallet",
                          transactionId := none, paidAt := some now },
             orderType := od.orderType,
             walletBalance := w.balance - q.totalAmount } ∧
       (createOrder w db userId od pr newId orderNumber now).db =
         replaceOrder (db ++ [newOrderDoc userId od q newId orderNumber])
           { newOrderDoc userId od q newId orderNumber with
               payment := { status := "completed", method := "wallet",
                            transactionId := none, paidAt := some now } }) := by
  refine ⟨rfl, rfl, ?_⟩
  intro hq hbal hpos
  have hded : deductMoney w q.totalAmount
      (some ("Payment for " ++ od.orderType ++ " order " ++ orderNumber))
      (some newId) none =
      Except.ok
        ({ balance := w.balance - q.totalAmount,
           transactions := w.transactions ++
             [debitTxnRecord q.totalAmount
               (some ("Payment for " ++ od.orderType ++ " order " ++ orderNumber))
               (some newId) none] },
         debitTxnRecord q.totalAmount
           (some ("Payment for " ++ od.orderType ++ " order " ++ orderNumber))
           (some newId) none) := by
    simp [deductMoney, not_le.2 hpos, hbal, Wallet.addTransaction, debitTxnRecord]
  constructor
  · simp only [createOrder, hq]
    rw [if_neg hbal, hded]
    rfl
  · simp only [createOrder, hq]
    rw [if_neg hbal, hded]

/-- C9 (amended).  Order-access authorization: a lookup that matches no
order fails with the 404 not-found error; an ObjectId lookup that finds an
order owned by another user fails with the 403 unauthorized error; an
order-number lookup is scoped to the caller in the query itself, so a
foreign-owned order is simply not found (404) and a found one is always the
caller's own.  The lookup mutates nothing. -/
theorem getOrderById_auth_contract (db : List Order) (orderId userId : String)
    (o : Order) :
    (isObjectIdString orderId = true →
      db.find? (fun x => x.id == orderId) = none →
        getOrderById db orderId userId = Except.error orderNotFoundError) ∧
    (isObjectIdString orderId = true →
      db.find? (fun x => x.id == orderId) = some o → o.user ≠ userId →
        getOrderById db orderId userId = Except.error unauthorizedOrderError) ∧
    (isObjectIdString orderId = true →
      db.find? (fun x => x.id == orderId) = some o → o.user = userId →
        getOrderById db orderId userId = Except.ok o) ∧
    (isObjectIdString orderId = false →
      db.find? (fun x => x.orderNumber == orderId && x.user == userId) = none →
        getOrderById db orderId userId = Except.error orderNotFoundError) ∧
    (isObjectIdString orderId = false →
      db.find? (fun x => x.orderNumber == orderId && x.user == userId) = some o →
        getOrderById db orderId userId = Except.ok o) := by
  refine ⟨?_, ?_, ?_, ?_, ?_⟩
  · intro hid hnone
    simp [getOrderById, hid, hnone, orderNotFoundError]
  · intro hid hsome hne
    simp [getOrderById, hid, hsome, hne, unauthorizedOrderError]
  · intro hid hsome heq
    simp [getOrderById, hid, hsome, heq]
  · intro hid hnone
    simp [getOrderById, hid, hnone, orderNotFoundError]
  · intro hid hsome
    have hpred := List.find?_some hsome
    have huser : o.user = userId := by
      simp at hpred
      exact hpred.2
    simp [getOrderById, hid, hsome, huser]

/-- C9 counterexample: an existing order (`ORD1`, owned by `u1`) looked up by
order number by a different caller (`u2`) yields the 404 not-found error, not
the 403 unauthorized error the claim requires for both lookup forms; the same
order looked up by its ObjectId does yield 403. -/
theorem getOrderById_foreign_counterexample :
    foreignOrder.orderNumber = "ORD1" ∧
    foreignOrder.user ≠ "u2" ∧
    getOrderById [foreignOrder] "ORD1" "u2" = Except.error orderNotFoundError ∧
    getOrderById [foreignOrder] "ORD1" "u2" ≠ Except.error unauthorizedOrderError ∧
    getOrderById [foreignOrder] "aaaaaaaaaaaaaaaaaaaaaaaa" "u2" =
      Except.error unauthorizedOrderError := by
  refine ⟨rfl, by decide, ?_, ?_, ?_⟩ <;>
    simp [getOrderById, isObjectIdString, foreignOrder, orderNotFoundError,
      unauthorizedOrderError, isHexChar]

/-- C10.  Frame property of a successful status update: an already-assigned
(truthy) AWB is never overwritten, the AWB is also untouched when the update
carries none, and every field other than status, awb, trackingUrl and
metadata — id, user, orderNumber, orderType, both address blocks, package
details, partner, pricing and payment — is left unchanged; a found order
with a valid status is saved exactly as `applyStatusToOrder` rewrites it. -/
theorem statusUpdate_frame (o : Order) (awb : Option String) (status : String)
    (td : TrackingData) (partner : Option String) (now : Nat)
    (db : List Order) (orderId : Option String) :
    (strTruthy o.awb = true →
      (applyStatusToOrder o awb status td partner now).awb = o.awb) ∧
    (strTruthy awb = false →
      (applyStatusToOrder o awb status td partner now).awb = o.awb) ∧
    (applyStatusToOrder o awb status td partner now).status = status ∧
    (applyStatusToOrder o awb status td partner now).id = o.id ∧
    (applyStatusToOrder o awb status td partner now).user = o.user ∧
    (applyStatusToOrder o awb status td partner now).orderNumber = o.orderNumber ∧
    (applyStatusToOrder o awb status td partner now).orderType = o.orderType ∧
    (applyStatusToOrder o awb status td partner now).pickupDetails = o.pickupDetails ∧
    (applyStatusToOrder o awb status td partner now).deliveryDetails = o.deliveryDetails ∧
    (applyStatusToOrder o awb status td partner now).packageDetails = o.packageDetails ∧
    (applyStatusToOrder o awb status td partner now).deliveryPartner = o.deliveryPartner ∧
    (applyStatusToOrder o awb status td partner now).pricing = o.pricing ∧
    (applyStatusToOrder o awb status td partner now).payment = o.payment ∧
    (strTruthy orderId = true →
      db.find? (fun x => some x.id == orderId) = some o →
      status ∈ internalStatuses →
        updateOrderStatus db orderId awb status td partner now =
          Except.ok (replaceOrder db (applyStatusToOrder o awb status td partner now),
            applyStatusToOrder o awb status td partner now)) := by
  refine ⟨?_, ?_, rfl, rfl, rfl, rfl, rfl, rfl, rfl, rfl, rfl, rfl, rfl, ?_⟩
  · intro h
    simp [applyStatusToOrder, h]
  · intro h
    simp [applyStatusToOrder, h]
  · intro h1 hsome hmem
    simp [updateOrderStatus, h1, hsome, hmem]

end Flywell
